import Mathlib

/-!
Shallow embedding of the IMAP connector of `src/imap.rs` (pimalaya-himalaya).

The mail server, the external `imap` session library and the external
`mailparse` library are modelled as response oracles bundled in `Env`:
every session call the connector makes consults the oracle and may fail,
exactly as the corresponding Rust call may return `Err`.  Each connector
operation additionally returns the list of wire commands it issued, in
order, so that temporal and wire-format claims can be stated.
-/

namespace Himalaya

/-- Wire commands issued on the IMAP session, mirroring the calls made in
`src/imap.rs`: `select`, `uid_search`, `uid_fetch` and `list`. -/
inductive Cmd where
  | select (mbox : String)
  | uidSearch (query : String)
  | uidFetch (uidset : String) (items : String)
  | listCmd (refName : String) (pattern : String)
deriving DecidableEq, Repr

/-- Error enum of `src/imap.rs` lines 13-19.  The payloads of the three
wrapped library errors (`native_tls::Error`, `imap::Error`,
`mailparse::MailParseError`) are opaque to this crate and modelled as
strings. -/
inductive Error where
  | CreateTlsConnectorError (err : String)
  | CreateImapSession (err : String)
  | ParseEmailError (err : String)
  | ReadEmailNotFoundError (uid : String)
  | ReadEmailEmptyPartError (uid : String) (mime : String)
deriving DecidableEq, Repr

/-- One `FETCH` response item as exposed by the external imap library:
a numeric UID, opaque envelope and internal-date payloads, and an
optional raw body (`fetch.body()` returns `Option<&[u8]>`). -/
structure Fetch where
  uid : Nat
  envelope : Option String
  internalDate : Option String
  body : Option (List Nat)
deriving DecidableEq, Repr

/-- Modelled from the spec: the email summary value (section 3, "Email
(summary)"): a string-typed UID, opaque envelope metadata and an internal
date, produced by the summary fetch.  The constructor `Email::from_fetch`
lives in `crate::email`, which is not under `src/`. -/
structure Email where
  uid : String
  envelope : Option String
  internalDate : Option String
deriving DecidableEq, Repr

/-- Modelled from the spec: `Email::from_fetch` maps one raw fetch item to
one summary, passing the envelope fields through. -/
def Email.from_fetch (f : Fetch) : Email :=
  { uid := toString f.uid, envelope := f.envelope, internalDate := f.internalDate }

/-- One raw listing entry returned by the session `list` call (the
external library's `Name`); only its name matters to this core. -/
structure Name where
  name : String
deriving DecidableEq, Repr

/-- Modelled from the spec: a `Mailbox` is "a name ... derived from a raw
protocol listing entry" (section 3); `Mailbox::from_name` lives in
`crate::mailbox`, which is not under `src/`. -/
structure Mailbox where
  name : String
deriving DecidableEq, Repr

/-- Modelled from the spec: `Mailbox::from_name` derives the mailbox value
from one raw listing entry. -/
def Mailbox.from_name (n : Name) : Mailbox :=
  { name := n.name }

/-- One text part of a parsed MIME message: its MIME type and its text. -/
structure MailPart where
  mimeType : String
  text : String
deriving DecidableEq, Repr

/-- A parsed MIME message, abstracted as its text parts in document order. -/
abbrev ParsedMail := List MailPart

/-- Modelled from the spec: `email::extract_text_bodies(&mime, &email)`
(crate `email`, not under `src/`) extracts "every text part whose MIME
type matches the requested type" and concatenates them "(order = document
order) into one string" (section 4.3). -/
def extract_text_bodies (mime : String) (m : ParsedMail) : String :=
  String.join ((m.filter (fun p => p.mimeType = mime)).map MailPart.text)

/-- Response oracle standing for the mail server together with the
external session and parsing libraries.  Search and fetch responses are
indexed by the mailbox selected when the command is issued.  Errors are
the opaque library errors (`imap::Error` as strings, and
`mailparse::MailParseError` for `parseMail`). -/
structure Env where
  selectResp : String → Except String Unit
  searchResp : String → String → Except String (List Nat)
  fetchResp : String → String → String → Except String (List Fetch)
  listResp : Except String (List Name)
  parseMail : List Nat → Except String ParsedMail

/-- Bound used on the UID slice in `read_emails` (`src/imap.rs` line 103):
`20.min(uids.len())`. -/
def sliceBound (n : Nat) : Nat :=
  min 20 n

/-- The UID window `uids[..20.min(uids.len())]` of `src/imap.rs` line 103. -/
def windowUids (uids : List String) : List String :=
  uids.take (sliceBound uids.length)

/-- Rust slice expression `l[..k]` on a vector: defined when `k <= l.len()`,
a panic (modelled as `none`) otherwise. -/
def rustSliceTo (l : List String) (k : Nat) : Option (List String) :=
  if k ≤ l.length then some (l.take k) else none

/-- The joined UID set string `uids[..20.min(uids.len())].join(",")`. -/
def uidSetOf (uids : List String) : String :=
  String.intercalate "," (windowUids uids)

/-- Data items requested by the summary fetch (`src/imap.rs` line 104). -/
def summaryItems : String :=
  "(UID ENVELOPE INTERNALDATE)"

/-- Oracle for `ImapConnector::new` (`src/imap.rs` lines 69-77): outcomes
of `TlsConnector::new()`, `imap::connect(...)` and `client.login(...)`.
The two session-library failures carry an opaque `imap::Error`. -/
structure ConnOracle where
  tlsNew : Except String Unit
  connect : Except String Unit
  login : Except String Unit

/-- Embedding of `ImapConnector::new` (`src/imap.rs` lines 69-77): `?` on
`TlsConnector::new()` converts through `From<native_tls::Error>` to
`CreateTlsConnectorError`; `?` on `imap::connect` and the mapped error of
`client.login` both convert through `From<imap::Error>` to
`CreateImapSession`. -/
def ImapConnector.new (o : ConnOracle) : Except Error Unit :=
  match o.tlsNew with
  | .error e => .error (Error.CreateTlsConnectorError e)
  | .ok _ =>
    match o.connect with
    | .error e => .error (Error.CreateImapSession e)
    | .ok _ =>
      match o.login with
      | .error e => .error (Error.CreateImapSession e)
      | .ok _ => .ok ()

/-- Embedding of `ImapConnector::list_mailboxes` (`src/imap.rs` lines
79-88): one `list(Some(""), Some("*"))` call; each returned raw entry is
mapped through `Mailbox::from_name` in response order. -/
def list_mailboxes (env : Env) : Except Error (List Mailbox) × List Cmd :=
  match env.listResp with
  | .error e => (.error (Error.CreateImapSession e), [Cmd.listCmd "" "*"])
  | .ok names => (.ok (names.map Mailbox.from_name), [Cmd.listCmd "" "*"])

/-- Embedding of `ImapConnector::read_emails` (`src/imap.rs` lines
90-111): select the mailbox, `uid_search(query)`, stringify the matching
UIDs, then `uid_fetch` of the first `20.min(len)` of them joined with
commas, requesting `(UID ENVELOPE INTERNALDATE)`, and map each fetch item
through `Email::from_fetch`. -/
def read_emails (env : Env) (mbox query : String) :
    Except Error (List Email) × List Cmd :=
  match env.selectResp mbox with
  | .error e => (.error (Error.CreateImapSession e), [Cmd.select mbox])
  | .ok _ =>
    match env.searchResp mbox query with
    | .error e =>
      (.error (Error.CreateImapSession e), [Cmd.select mbox, Cmd.uidSearch query])
    | .ok ns =>
      match env.fetchResp mbox (uidSetOf (ns.map toString)) summaryItems with
      | .error e =>
        (.error (Error.CreateImapSession e),
         [Cmd.select mbox, Cmd.uidSearch query,
          Cmd.uidFetch (uidSetOf (ns.map toString)) summaryItems])
      | .ok fetches =>
        (.ok (fetches.map Email.from_fetch),
         [Cmd.select mbox, Cmd.uidSearch query,
          Cmd.uidFetch (uidSetOf (ns.map toString)) summaryItems])

/-- Tail of `read_email_body` from the raw bytes on (`src/imap.rs` lines
120-130): parse the bytes with `mailparse::parse_mail` (`?` converts a
failure to `ParseEmailError`), extract the text bodies of the requested
MIME type, and fail with `ReadEmailEmptyPartError` when the extracted
string is empty. -/
def bodyOfBytes (env : Env) (uid mime : String) (bytes : List Nat) :
    Except Error String :=
  match env.parseMail bytes with
  | .error e => .error (Error.ParseEmailError e)
  | .ok email =>
    if (extract_text_bodies mime email).isEmpty then
      .error (Error.ReadEmailEmptyPartError uid mime)
    else
      .ok (extract_text_bodies mime email)

/-- Embedding of `ImapConnector::read_email_body` (`src/imap.rs` lines
113-133): select the mailbox, `uid_fetch(uid, "BODY[]")`, take `.first()`
of the response; no item means `ReadEmailNotFoundError(uid)`; otherwise
`fetch.body().unwrap_or(&[])` feeds the parse-and-extract tail. -/
def read_email_body (env : Env) (mbox uid mime : String) :
    Except Error String × List Cmd :=
  match env.selectResp mbox with
  | .error e => (.error (Error.CreateImapSession e), [Cmd.select mbox])
  | .ok _ =>
    match env.fetchResp mbox uid "BODY[]" with
    | .error e =>
      (.error (Error.CreateImapSession e),
       [Cmd.select mbox, Cmd.uidFetch uid "BODY[]"])
    | .ok fetches =>
      match fetches.head? with
      | none =>
        (.error (Error.ReadEmailNotFoundError uid),
         [Cmd.select mbox, Cmd.uidFetch uid "BODY[]"])
      | some fetch =>
        (bodyOfBytes env uid mime (fetch.body.getD []),
         [Cmd.select mbox, Cmd.uidFetch uid "BODY[]"])

/-- Whether a command is a mailbox-relative query (search or fetch). -/
def Cmd.isSearchOrFetch : Cmd → Bool
  | .uidSearch _ => true
  | .uidFetch _ _ => true
  | _ => false

/-- A concrete well-behaved server used to instantiate the conditional
theorems: three messages match every search, summary fetches answer one
item per requested UID, the body fetch of UID 2 returns one HTML part. -/
def fetchW : Fetch :=
  { uid := 1, envelope := some "env", internalDate := some "date", body := none }

def bodyFetchW : Fetch :=
  { uid := 2, envelope := none, internalDate := none, body := some [104, 105] }

def envW : Env :=
  { selectResp := fun _ => .ok ()
    searchResp := fun _ _ => .ok [1, 2, 3]
    fetchResp := fun _ _ items =>
      if items = "BODY[]" then .ok [bodyFetchW] else .ok [fetchW, fetchW, fetchW]
    listResp := .ok [{ name := "INBOX" }, { name := "Sent" }]
    parseMail := fun _ => .ok [{ mimeType := "text/html", text := "<p>hi</p>" }] }

/-- A concrete server whose fetches return no item, so every UID is
absent. -/
def envEmptyW : Env :=
  { selectResp := fun _ => .ok ()
    searchResp := fun _ _ => .ok []
    fetchResp := fun _ _ _ => .ok []
    listResp := .ok []
    parseMail := fun _ => .ok [] }

/-- C9: the slice bound `20.min(uids.len())` used by `read_emails` never
exceeds the list length, so the Rust slice `uids[..20.min(uids.len())]`
is always in bounds (no panic), including for the empty list, and yields
exactly the UID window the code goes on to join. -/
theorem sliceBound_safe (l : List String) :
    rustSliceTo l (sliceBound l.length) = some (windowUids l) ∧
      sliceBound l.length ≤ l.length := by
  have hb : sliceBound l.length ≤ l.length := by
    unfold sliceBound
    omega
  refine ⟨?_, hb⟩
  unfold rustSliceTo windowUids
  rw [if_pos hb]

/-- C6: `list_mailboxes` maps each raw listing entry to one `Mailbox`
value in the server-given order with no resorting, and an empty server
listing yields an empty (non-error) sequence. -/
theorem list_mailboxes_pass_through (env : Env) (names : List Name)
    (hlist : env.listResp = .ok names) :
    (list_mailboxes env).1 = .ok (names.map Mailbox.from_name) ∧
      (names = [] → (list_mailboxes env).1 = .ok []) := by
  constructor
  · simp [list_mailboxes, hlist]
  · intro h
    simp [list_mailboxes, hlist, h]

/-- Witness for C6 at a concrete two-mailbox server and at the
zero-mailbox server. -/
theorem list_mailboxes_pass_through_witness :
    (list_mailboxes envW).1 =
        .ok [{ name := "INBOX" }, { name := "Sent" }] ∧
      (list_mailboxes envEmptyW).1 = .ok [] :=
  ⟨(list_mailboxes_pass_through envW
      [{ name := "INBOX" }, { name := "Sent" }] rfl).1,
   (list_mailboxes_pass_through envEmptyW [] rfl).2 rfl⟩

/-- C2: when the server's UID FETCH for the requested uid returns no
fetch item, `read_email_body` fails with `ReadEmailNotFoundError`
carrying exactly that uid. -/
theorem read_email_body_not_found (env : Env) (mbox uid mime : String)
    (hsel : env.selectResp mbox = .ok ())
    (hfetch : env.fetchResp mbox uid "BODY[]" = .ok []) :
    (read_email_body env mbox uid mime).1 =
      .error (Error.ReadEmailNotFoundError uid) := by
  simp [read_email_body, hsel, hfetch]

/-- Witness for C2: UID 99 is absent on the empty server. -/
theorem read_email_body_not_found_witness :
    (read_email_body envEmptyW "INBOX" "99" "text/plain").1 =
      .error (Error.ReadEmailNotFoundError "99") :=
  read_email_body_not_found envEmptyW "INBOX" "99" "text/plain" rfl rfl

theorem windowUids_length_le (l : List String) : (windowUids l).length ≤ 20 := by
  unfold windowUids sliceBound
  simp [List.length_take]

theorem windowUids_of_le (l : List String) (h : l.length ≤ 20) :
    windowUids l = l := by
  unfold windowUids sliceBound
  rw [min_eq_right h, List.take_length]

/-- C1: assuming the server answers the summary fetch with one item per
requested UID in the requested order, `read_emails` returns exactly the
summaries of the first `20.min(n)` matching UIDs in search-result order:
at most 20 summaries however many UIDs match, all of them when fewer than
20 match, and an empty non-error sequence when none match. -/
theorem read_emails_window (env : Env) (mbox query : String) (ns : List Nat)
    (fetchItem : String → Fetch)
    (hsel : env.selectResp mbox = .ok ())
    (hsearch : env.searchResp mbox query = .ok ns)
    (hfetch : env.fetchResp mbox (uidSetOf (ns.map toString)) summaryItems =
      .ok ((windowUids (ns.map toString)).map fetchItem)) :
    (read_emails env mbox query).1 =
        .ok ((windowUids (ns.map toString)).map
          (fun u => Email.from_fetch (fetchItem u))) ∧
      (∀ es, (read_emails env mbox query).1 = .ok es → es.length ≤ 20) ∧
      (ns.length < 20 →
        (read_emails env mbox query).1 =
          .ok ((ns.map toString).map (fun u => Email.from_fetch (fetchItem u)))) ∧
      (ns = [] → (read_emails env mbox query).1 = .ok []) := by
  have h1 : (read_emails env mbox query).1 =
      .ok ((windowUids (ns.map toString)).map
        (fun u => Email.from_fetch (fetchItem u))) := by
    simp [read_emails, hsel, hsearch, hfetch]
  refine ⟨h1, ?_, ?_, ?_⟩
  · intro es hes
    rw [h1] at hes
    injection hes with hes
    rw [← hes, List.length_map]
    exact windowUids_length_le _
  · intro hlt
    rw [h1, windowUids_of_le]
    rw [List.length_map]
    omega
  · intro hnil
    subst hnil
    simpa using h1

/-- Witness for C1 at the three-message server (all three summaries come
back in order) and at the empty server (zero matches, empty non-error
result). -/
theorem read_emails_window_witness :
    (read_emails envW "INBOX" "ALL").1 =
        .ok ((windowUids ([1, 2, 3].map toString)).map
          (fun u => Email.from_fetch ((fun _ => fetchW) u))) ∧
      (read_emails envEmptyW "INBOX" "UNSEEN").1 = .ok [] :=
  ⟨(read_emails_window envW "INBOX" "ALL" [1, 2, 3] (fun _ => fetchW)
      rfl rfl rfl).1,
   (read_emails_window envEmptyW "INBOX" "UNSEEN" [] (fun _ => fetchW)
      rfl rfl rfl).2.2.2 rfl⟩

/-- C3: when a fetch item exists for the uid but the parsed message has no
text part of the requested MIME type, `read_email_body` fails with
`ReadEmailEmptyPartError` carrying both the uid and the MIME type, a
different error value from every `ReadEmailNotFoundError`. -/
theorem read_email_body_empty_part (env : Env) (mbox uid mime : String)
    (f : Fetch) (rest : List Fetch) (m : ParsedMail)
    (hsel : env.selectResp mbox = .ok ())
    (hfetch : env.fetchResp mbox uid "BODY[]" = .ok (f :: rest))
    (hparse : env.parseMail (f.body.getD []) = .ok m)
    (hzero : m.filter (fun p => p.mimeType = mime) = []) :
    (read_email_body env mbox uid mime).1 =
        .error (Error.ReadEmailEmptyPartError uid mime) ∧
      ∀ u, Error.ReadEmailEmptyPartError uid mime ≠
        Error.ReadEmailNotFoundError u := by
  constructor
  · simp [read_email_body, hsel, hfetch, bodyOfBytes, hparse,
      extract_text_bodies, hzero, String.join]
    decide
  · intro u h
    exact Error.noConfusion h

/-- Witness for C3: UID 2 on the concrete server has only an HTML part,
so requesting `text/plain` fails with the empty-part error. -/
theorem read_email_body_empty_part_witness :
    (read_email_body envW "INBOX" "2" "text/plain").1 =
      .error (Error.ReadEmailEmptyPartError "2" "text/plain") :=
  (read_email_body_empty_part envW "INBOX" "2" "text/plain" bodyFetchW []
    [{ mimeType := "text/html", text := "<p>hi</p>" }] rfl rfl rfl rfl).1

/-- C5: when a fetch item exists for the uid, the result is computed from
the item's raw body where an absent payload is replaced by the empty byte
string rather than failing; a MIME parse failure yields the distinct
`ParseEmailError` condition; and when parsing succeeds and some text part
of the requested type is present, the result is the concatenation, in
document order, of exactly the text parts whose MIME type matches. -/
theorem read_email_body_parse_and_extract (env : Env) (mbox uid mime : String)
    (f : Fetch) (rest : List Fetch)
    (hsel : env.selectResp mbox = .ok ())
    (hfetch : env.fetchResp mbox uid "BODY[]" = .ok (f :: rest)) :
    ((read_email_body env mbox uid mime).1 =
        bodyOfBytes env uid mime (f.body.getD [])) ∧
      (f.body = none →
        (read_email_body env mbox uid mime).1 = bodyOfBytes env uid mime []) ∧
      (∀ bytes e, env.parseMail bytes = .error e →
        bodyOfBytes env uid mime bytes = .error (Error.ParseEmailError e) ∧
          (∀ u, Error.ParseEmailError e ≠ Error.ReadEmailNotFoundError u) ∧
          (∀ u mi, Error.ParseEmailError e ≠
            Error.ReadEmailEmptyPartError u mi)) ∧
      (∀ bytes m, env.parseMail bytes = .ok m →
        (extract_text_bodies mime m).isEmpty = false →
        bodyOfBytes env uid mime bytes =
          .ok (String.join
            ((m.filter (fun p => p.mimeType = mime)).map MailPart.text))) := by
  have h1 : (read_email_body env mbox uid mime).1 =
      bodyOfBytes env uid mime (f.body.getD []) := by
    simp [read_email_body, hsel, hfetch]
  refine ⟨h1, ?_, ?_, ?_⟩
  · intro hnone
    rw [h1, hnone]
    rfl
  · intro bytes e hpe
    refine ⟨by simp [bodyOfBytes, hpe], ?_, ?_⟩
    · intro u h
      exact Error.noConfusion h
    · intro u mi h
      exact Error.noConfusion h
  · intro bytes m hpm hne
    simp [bodyOfBytes, hpm, hne]
    rfl

/-- Witness for C5: UID 2's raw body parses to one HTML part, and
requesting `text/html` succeeds with that part's text. -/
theorem read_email_body_parse_and_extract_witness :
    (read_email_body envW "INBOX" "2" "text/html").1 = .ok "<p>hi</p>" :=
  ((read_email_body_parse_and_extract envW "INBOX" "2" "text/html"
      bodyFetchW [] rfl rfl).1).trans
    ((read_email_body_parse_and_extract envW "INBOX" "2" "text/html"
      bodyFetchW [] rfl rfl).2.2.2 [104, 105]
      [{ mimeType := "text/html", text := "<p>hi</p>" }] rfl rfl)

/-- C10: the result of `read_email_body` depends only on the first fetch
item of the server's response: two servers answering with the same first
item and the same parser, whatever the remaining items, give the same
result. -/
theorem read_email_body_first_item_only (env1 env2 : Env)
    (mbox uid mime : String) (f : Fetch) (r1 r2 : List Fetch)
    (hsel1 : env1.selectResp mbox = .ok ())
    (hsel2 : env2.selectResp mbox = .ok ())
    (hf1 : env1.fetchResp mbox uid "BODY[]" = .ok (f :: r1))
    (hf2 : env2.fetchResp mbox uid "BODY[]" = .ok (f :: r2))
    (hpm : env1.parseMail = env2.parseMail) :
    (read_email_body env1 mbox uid mime).1 =
      (read_email_body env2 mbox uid mime).1 := by
  simp [read_email_body, hsel1, hsel2, hf1, hf2, bodyOfBytes, hpm]

/-- A server identical to `envW` except that the body fetch returns a
second, different item after the first. -/
def envTwoW : Env :=
  { envW with
    fetchResp := fun _ _ items =>
      if items = "BODY[]" then .ok [bodyFetchW, fetchW] else .ok [fetchW] }

/-- Witness for C10: adding a second fetch item to the response leaves
the result unchanged. -/
theorem read_email_body_first_item_only_witness :
    (read_email_body envW "INBOX" "2" "text/html").1 =
      (read_email_body envTwoW "INBOX" "2" "text/html").1 :=
  read_email_body_first_item_only envW envTwoW "INBOX" "2" "text/html"
    bodyFetchW [] [fetchW] rfl rfl rfl rfl rfl

/-- Oracle where creating the TLS connector itself fails. -/
def tlsFailO : ConnOracle :=
  { tlsNew := .error "bad cert", connect := .ok (), login := .ok () }

/-- Oracle where the connection to the server fails. -/
def connectFailO : ConnOracle :=
  { tlsNew := .ok (), connect := .error "connection reset", login := .ok () }

/-- Oracle where the server rejects the login. -/
def loginFailO : ConnOracle :=
  { tlsNew := .ok (), connect := .ok (), login := .error "connection reset" }

/-- C4 counterexample: a connection failure and a login rejection carrying
the same underlying library error produce the very same `Error` value
(`CreateImapSession`), so the caller cannot distinguish the
authentication failure from the transport failure. -/
theorem new_connect_login_indistinguishable :
    ImapConnector.new connectFailO = ImapConnector.new loginFailO ∧
      ImapConnector.new loginFailO =
        .error (Error.CreateImapSession "connection reset") :=
  ⟨rfl, rfl⟩

/-- C4 (amended): TLS-connector setup failure yields the distinct
`CreateTlsConnectorError` condition; a connection failure and a rejected
login both yield `CreateImapSession` wrapping the underlying library
error, so they are distinguishable from TLS-setup errors but share one
condition with each other. -/
theorem new_error_conditions (o : ConnOracle) (e : String) :
    (o.tlsNew = .error e →
      ImapConnector.new o = .error (Error.CreateTlsConnectorError e)) ∧
      (o.tlsNew = .ok () → o.connect = .error e →
        ImapConnector.new o = .error (Error.CreateImapSession e)) ∧
      (o.tlsNew = .ok () → o.connect = .ok () → o.login = .error e →
        ImapConnector.new o = .error (Error.CreateImapSession e)) ∧
      (∀ e2, Error.CreateTlsConnectorError e ≠ Error.CreateImapSession e2) := by
  refine ⟨?_, ?_, ?_, ?_⟩
  · intro h
    simp [ImapConnector.new, h]
  · intro h1 h2
    simp [ImapConnector.new, h1, h2]
  · intro h1 h2 h3
    simp [ImapConnector.new, h1, h2, h3]
  · intro e2 h
    exact Error.noConfusion h

/-- Witness for the amended C4 at the concrete failing oracles. -/
theorem new_error_conditions_witness :
    ImapConnector.new tlsFailO =
        .error (Error.CreateTlsConnectorError "bad cert") ∧
      ImapConnector.new connectFailO =
        .error (Error.CreateImapSession "connection reset") :=
  ⟨(new_error_conditions tlsFailO "bad cert").1 rfl,
   (new_error_conditions connectFailO "connection reset").2.1 rfl rfl⟩

theorem read_emails_trace_shape (env : Env) (mbox query : String) :
    ∃ r, (read_emails env mbox query).2 = Cmd.select mbox :: r := by
  cases hsel : env.selectResp mbox with
  | error e => exact ⟨[], by simp [read_emails, hsel]⟩
  | ok u =>
    cases hsearch : env.searchResp mbox query with
    | error e =>
      refine ⟨[Cmd.uidSearch query], ?_⟩
      simp [read_emails, hsel, hsearch]
    | ok ns =>
      cases hf : env.fetchResp mbox (uidSetOf (ns.map toString)) summaryItems with
      | error e =>
        refine ⟨[Cmd.uidSearch query,
          Cmd.uidFetch (uidSetOf (ns.map toString)) summaryItems], ?_⟩
        simp [read_emails, hsel, hsearch, hf]
      | ok fs =>
        refine ⟨[Cmd.uidSearch query,
          Cmd.uidFetch (uidSetOf (ns.map toString)) summaryItems], ?_⟩
        simp [read_emails, hsel, hsearch, hf]

theorem read_email_body_trace_shape (env : Env) (mbox uid mime : String) :
    ∃ r, (read_email_body env mbox uid mime).2 = Cmd.select mbox :: r := by
  cases hsel : env.selectResp mbox with
  | error e => exact ⟨[], by simp [read_email_body, hsel]⟩
  | ok u =>
    cases hf : env.fetchResp mbox uid "BODY[]" with
    | error e =>
      refine ⟨[Cmd.uidFetch uid "BODY[]"], ?_⟩
      simp [read_email_body, hsel, hf]
    | ok fs =>
      refine ⟨[Cmd.uidFetch uid "BODY[]"], ?_⟩
      cases fs with
      | nil => simp [read_email_body, hsel, hf]
      | cons f fs2 => simp [read_email_body, hsel, hf]

theorem mem_tail_split {t : List Cmd} {mbox : String} {r : List Cmd}
    (ht : t = Cmd.select mbox :: r) (c : Cmd) (hc : c ∈ t)
    (hq : c.isSearchOrFetch = true) :
    ∃ p s, t = p ++ c :: s ∧ Cmd.select mbox ∈ p := by
  subst ht
  cases hc with
  | head => simp [Cmd.isSearchOrFetch] at hq
  | tail _ hmem =>
    obtain ⟨p, s, hps⟩ := List.append_of_mem hmem
    exact ⟨Cmd.select mbox :: p, s, by rw [hps]; simp, List.mem_cons_self _ _⟩

/-- C7: in the command trace of either mailbox-relative operation, every
search or fetch command is strictly preceded by a select of the target
mailbox; no search or fetch is ever issued without it. -/
theorem select_precedes_queries (env : Env) (mbox query uid mime : String) :
    (∀ c ∈ (read_emails env mbox query).2, c.isSearchOrFetch = true →
      ∃ p s, (read_emails env mbox query).2 = p ++ c :: s ∧
        Cmd.select mbox ∈ p) ∧
      (∀ c ∈ (read_email_body env mbox uid mime).2, c.isSearchOrFetch = true →
        ∃ p s, (read_email_body env mbox uid mime).2 = p ++ c :: s ∧
          Cmd.select mbox ∈ p) := by
  constructor
  · intro c hc hq
    obtain ⟨r, hr⟩ := read_emails_trace_shape env mbox query
    exact mem_tail_split hr c hc hq
  · intro c hc hq
    obtain ⟨r, hr⟩ := read_email_body_trace_shape env mbox uid mime
    exact mem_tail_split hr c hc hq

/-- Witness for C7: the UID SEARCH issued by a concrete `read_emails` run
is preceded by the select of its mailbox. -/
theorem select_precedes_queries_witness :
    ∃ p s, (read_emails envW "INBOX" "ALL").2 =
        p ++ Cmd.uidSearch "ALL" :: s ∧ Cmd.select "INBOX" ∈ p :=
  (select_precedes_queries envW "INBOX" "ALL" "2" "text/html").1
    (Cmd.uidSearch "ALL") (by decide) rfl

/-- C8: the wire commands issued are exactly the specified ones:
`list_mailboxes` a LIST from the root namespace with wildcard depth;
`read_emails` (select succeeding then search succeeding) a UID SEARCH
with the unmodified query then a UID FETCH requesting
`(UID ENVELOPE INTERNALDATE)`; `read_email_body` (select succeeding) a
UID FETCH of the given uid requesting `BODY[]`. -/
theorem wire_commands (env : Env) (mbox query uid mime : String)
    (ns : List Nat) :
    ((list_mailboxes env).2 = [Cmd.listCmd "" "*"]) ∧
      (env.selectResp mbox = .ok () → env.searchResp mbox query = .ok ns →
        (read_emails env mbox query).2 =
          [Cmd.select mbox, Cmd.uidSearch query,
           Cmd.uidFetch (uidSetOf (ns.map toString))
             "(UID ENVELOPE INTERNALDATE)"]) ∧
      (env.selectResp mbox = .ok () →
        (read_email_body env mbox uid mime).2 =
          [Cmd.select mbox, Cmd.uidFetch uid "BODY[]"]) := by
  refine ⟨?_, ?_, ?_⟩
  · unfold list_mailboxes
    cases env.listResp <;> rfl
  · intro hsel hsearch
    cases hf : env.fetchResp mbox (uidSetOf (ns.map toString)) summaryItems with
    | error e =>
      simp only [summaryItems] at hf
      simp [read_emails, hsel, hsearch, hf, summaryItems]
    | ok fs =>
      simp only [summaryItems] at hf
      simp [read_emails, hsel, hsearch, hf, summaryItems]
  · intro hsel
    cases hf : env.fetchResp mbox uid "BODY[]" with
    | error e => simp [read_email_body, hsel, hf]
    | ok fs =>
      cases fs with
      | nil => simp [read_email_body, hsel, hf]
      | cons f fs2 => simp [read_email_body, hsel, hf]

/-- Witness for C8 on the concrete three-message server. -/
theorem wire_commands_witness :
    (list_mailboxes envW).2 = [Cmd.listCmd "" "*"] ∧
      (read_emails envW "INBOX" "ALL").2 =
        [Cmd.select "INBOX", Cmd.uidSearch "ALL",
         Cmd.uidFetch "1,2,3" "(UID ENVELOPE INTERNALDATE)"] ∧
      (read_email_body envW "INBOX" "2" "text/html").2 =
        [Cmd.select "INBOX", Cmd.uidFetch "2" "BODY[]"] := by
  have h := wire_commands envW "INBOX" "ALL" "2" "text/html" [1, 2, 3]
  exact ⟨h.1, (h.2.1 rfl rfl).trans (by rfl), h.2.2 rfl⟩

end Himalaya
